import Mathlib

/-!
Verification of the green-rs asynchronous I/O runtime (librustuv).

Each definition below is a shallow embedding of a function or data type of
the Rust source under src/librustuv/src/, translated statement by statement.
Panicking executions (failed assert!, unwrap of None, unreachable!) are
modelled by an Option-valued result where none stands for the panic.
-/

namespace Rustuv

/- Error codes exposed by the libuv bindings.
Modelled from the spec: the error-constant module (uvll.rs) is not part of
the sources provided; the spec names the codes EOF and CANCELED as distinct
error values of the reactor's error space, and libuv defines them as the
distinct negative integers used here. -/
namespace uvll

def EOF : Int := -4095

def ECANCELED : Int := -4081

end uvll

/-- UvError from src/librustuv/src/lib.rs:348: a wrapped integer error code. -/
structure UvError where
  code : Int
deriving DecidableEq, Repr

/-- UvResult from src/librustuv/src/lib.rs:347. -/
abbrev UvResult (T : Type) := Except UvError T

/-- Decidable equality for results, used to evaluate the model on concrete
inputs. -/
instance {T : Type} [DecidableEq T] : DecidableEq (UvResult T) := fun a b =>
  match a, b with
  | .error x, .error y =>
    if h : x = y then .isTrue (by rw [h]) else .isFalse (by simp [h])
  | .ok x, .ok y =>
    if h : x = y then .isTrue (by rw [h]) else .isFalse (by simp [h])
  | .error _, .ok _ => .isFalse (by simp)
  | .ok _, .error _ => .isFalse (by simp)

/-- A BlockedTask is an opaque token for a parked green task; we model it as
a task identifier. -/
abbrev BlockedTask := Nat

/-- wakeup from src/librustuv/src/lib.rs:241-244:
asserts the slot holds a task, takes it out and reawakens it.
Result: none when the assertion fails (empty slot), otherwise
some (reawakened task, slot contents afterwards). -/
def wakeup (slot : Option BlockedTask) : Option (BlockedTask × Option BlockedTask) :=
  match slot with
  | none => none
  | some t => some (t, none)

/-- The data slot of a raw uv loop, used as the blocker counter
(src/librustuv/src/lib.rs:232 reads it as a uint). -/
structure RawLoop where
  data : Nat
deriving DecidableEq, Repr

/-- block from src/librustuv/src/lib.rs:229-239: reads the loop's data slot
as the count cnt, stores cnt + 1, deschedules the task, and on resume stores
cnt back. The result is (loop state while the task is parked, loop state
after the task resumes). -/
def block (uv_loop : RawLoop) : RawLoop × RawLoop :=
  let cnt := uv_loop.data
  (⟨cnt + 1⟩, ⟨cnt⟩)

namespace event_loop

/-- EventLoop from src/librustuv/src/event_loop.rs:47, restricted to the
uv loop and its data slot (the queue pool plays no part in the claims). -/
structure EventLoop where
  uv_loop : RawLoop
deriving DecidableEq, Repr

/-- EventLoop::new from src/librustuv/src/event_loop.rs:59-67: the loop's
data slot is initialized to zero. -/
def new : EventLoop := ⟨⟨0⟩⟩

/-- EventLoop::has_active_io from src/librustuv/src/event_loop.rs:153-156:
the body is the literal true; the blocker-count comparison is commented out. -/
def has_active_io (_self : EventLoop) : Bool :=
  true

/-- Loop::get_blockers as documented at src/librustuv/src/lib.rs:342-344:
the data slot of the loop read as a count. -/
def get_blockers (l : RawLoop) : Nat := l.data

end event_loop

/-- C1: wakeup takes the one parked task out of the slot and reawakens it;
waking an empty slot fails the assertion, so a second wake of the same slot
also fails. -/
theorem C1_wakeup_exactly_one :
    (∀ t : BlockedTask, wakeup (some t) = some (t, none)) ∧
    wakeup (none : Option BlockedTask) = none ∧
    (∀ t : BlockedTask,
      (wakeup (some t)).bind (fun r => wakeup r.2) = none) := by
  refine ⟨fun t => rfl, rfl, fun t => rfl⟩

/-- C2: block increments the loop's blocker count by one before the task is
descheduled and restores the prior value when the task resumes; the count is
a natural number, hence never negative. -/
theorem C2_block_blocker_count (l : RawLoop) :
    (block l).1.data = l.data + 1 ∧
    (block l).2 = l ∧
    0 ≤ (block l).1.data := by
  refine ⟨rfl, rfl, Nat.zero_le _⟩

/-- C2 witness: block on a loop whose data slot holds 4. -/
theorem C2_block_blocker_count_w :
    (block ⟨4⟩).1.data = 4 + 1 ∧ (block ⟨4⟩).2 = ⟨4⟩ ∧ 0 ≤ (block ⟨4⟩).1.data :=
  C2_block_blocker_count ⟨4⟩

/-- C7: the claim states has_active_io is true iff the blocker count is
positive, but the code returns the literal true unconditionally: on a freshly
created loop the blocker count is 0 while has_active_io still reports true. -/
theorem C7_has_active_io_stubbed :
    event_loop.has_active_io event_loop.new = true ∧
    event_loop.get_blockers event_loop.new.uv_loop = 0 ∧
    ¬(event_loop.has_active_io event_loop.new = true ↔
        0 < event_loop.get_blockers event_loop.new.uv_loop) := by
  refine ⟨rfl, rfl, ?_⟩
  intro h
  exact absurd (h.mp rfl) (by decide)

namespace timeout

/-- Client from src/librustuv/src/timeout.rs:46-51. -/
inductive Client
  | NoWaiter
  | AccessPending
  | RequestPending
deriving DecidableEq, Repr

/-- State from src/librustuv/src/timeout.rs:39-44. -/
inductive State
  | NoTimeout
  | TimeoutPending (c : Client)
  | TimedOut
deriving DecidableEq, Repr

/-- AccessTimeout::timed_out from src/librustuv/src/timeout.rs:102-107. -/
def timed_out : State → Bool
  | .TimedOut => true
  | _ => false

/-- The timer callback timer_cb from src/librustuv/src/timeout.rs:151-172:
it replaces the state with TimedOut and matches on the previous state;
TimedOut and NoTimeout are unreachable (none models the panic). The
reawakening of the dequeued waiter or of the request holder is a side effect
on the waiting grant call, modelled in grant below by the timer_fires flag. -/
def timer_cb : State → Option State
  | .TimedOut => none
  | .NoTimeout => none
  | .TimeoutPending _ => some .TimedOut

/-- The state produced by AccessTimeout::set_timeout from
src/librustuv/src/timeout.rs:118-147: the state is first reset to NoTimeout;
a present duration (negative durations clamp to 0 ms) then (re)starts the
timer and sets TimeoutPending(NoWaiter), while None stops the timer and
leaves NoTimeout. -/
def set_timeout_state (dur : Option Int) : State :=
  match dur with
  | none => .NoTimeout
  | some _ => .TimeoutPending .NoWaiter

/-- Drop for Guard from src/librustuv/src/timeout.rs:190-203: NoWaiter and
AccessPending under a live guard are unreachable (none models the panic);
RequestPending reverts to NoWaiter; NoTimeout and TimedOut are kept. -/
def guard_drop : State → Option State
  | .TimeoutPending .NoWaiter => none
  | .TimeoutPending .AccessPending => none
  | .NoTimeout => some .NoTimeout
  | .TimedOut => some .TimedOut
  | .TimeoutPending .RequestPending => some (.TimeoutPending .NoWaiter)

/-- AccessTimeout::grant from src/librustuv/src/timeout.rs:71-100.
First match: TimedOut returns ECANCELED at once, TimeoutPending flags the
client as AccessPending. Then access.grant runs (it may park the caller;
timer_fires says whether the timeout's timer_cb fires meanwhile). Second
match on the state seen after access.grant returns: TimedOut returns
ECANCELED, TimeoutPending flags RequestPending with can_timeout true.
Result: none for a panicking run, otherwise some (grant result carrying
can_timeout, state afterwards). -/
def grant (state : State) (timer_fires : Bool) :
    Option (UvResult Bool × State) :=
  match state with
  | .TimedOut => some (.error ⟨uvll.ECANCELED⟩, .TimedOut)
  | s0 =>
    let s1 : State :=
      match s0 with
      | .NoTimeout => .NoTimeout
      | .TimeoutPending _ => .TimeoutPending .AccessPending
      | .TimedOut => .TimedOut
    match (if timer_fires then timer_cb s1 else some s1) with
    | none => none
    | some s2 =>
      match s2 with
      | .NoTimeout => some (.ok false, .NoTimeout)
      | .TimeoutPending _ => some (.ok true, .TimeoutPending .RequestPending)
      | .TimedOut => some (.error ⟨uvll.ECANCELED⟩, .TimedOut)

end timeout

/-- C3: in the TimedOut state every grant fails with ECANCELED and leaves the
state TimedOut; neither a guard drop nor the timer callback leaves TimedOut
(the timer callback in TimedOut is an unreachable panic); a new set_timeout
resets the state, after which a grant succeeds. -/
theorem C3_timedout_grants_canceled :
    (∀ fires : Bool,
      timeout.grant .TimedOut fires
        = some (.error ⟨uvll.ECANCELED⟩, .TimedOut)) ∧
    timeout.guard_drop .TimedOut = some .TimedOut ∧
    timeout.timer_cb .TimedOut = none ∧
    (∀ d : Option Int, ∃ ct s2,
      timeout.grant (timeout.set_timeout_state d) false
        = some (.ok ct, s2)) := by
  refine ⟨fun fires => rfl, rfl, rfl, fun d => ?_⟩
  cases d with
  | none => exact ⟨false, .NoTimeout, rfl⟩
  | some v => exact ⟨true, .TimeoutPending .RequestPending, rfl⟩

/-- C3 witness: grant in the TimedOut state fails with ECANCELED, and after
set_timeout with a 50 ms duration a grant succeeds. -/
theorem C3_timedout_grants_canceled_w :
    timeout.grant .TimedOut false
      = some (.error ⟨uvll.ECANCELED⟩, .TimedOut) ∧
    ∃ ct s2, timeout.grant (timeout.set_timeout_state (some 50)) false
      = some (.ok ct, s2) :=
  ⟨C3_timedout_grants_canceled.1 false,
   C3_timedout_grants_canceled.2.2.2 (some 50)⟩

namespace accept_timeout

/-- AcceptorState from src/librustuv/src/timeout.rs:339-342. -/
structure AcceptorState (T : Type) where
  blocked_acceptor : Option BlockedTask
  pending : List (UvResult T)
deriving DecidableEq, Repr

/-- AcceptTimeout from src/librustuv/src/timeout.rs:331-333, flattened into
the pieces of the wrapped AccessTimeout the code reads: its timeout state,
the closed flag of the inner Access, and the Access-guarded AcceptorState.
The closed flag's semantics are modelled from the spec (access.rs is not
among the sources): close() flips a persistent closed bit that grants and
holders observe via is_closed, and an uncontended grant returns at once. -/
structure AcceptTimeout (T : Type) where
  state : timeout.State
  closed : Bool
  data : AcceptorState T
deriving DecidableEq, Repr

/-- The task token handed out when accept parks
(the concrete identity of the task is irrelevant to the model). -/
def theTask : BlockedTask := 0

/-- AcceptTimeout::accept from src/librustuv/src/timeout.rs:354-394.
If timed out and not closed, pending.remove(0) is returned when present and
ECANCELED otherwise. Otherwise access.grant runs (timer_fires as in
timeout.grant); a closed guard returns EOF; a queued connection is popped
and returned; with an empty queue the task parks with blocked_acceptor set,
during_block is the reactor activity while parked, and on resume
pending.remove(0) is evaluated first, then a closed queue yields EOF, a
popped message is returned, and an empty queue yields ECANCELED. Dropping
the guard applies timeout.guard_drop to the state. none models a panic. -/
def accept {T : Type} (s : AcceptTimeout T) (timer_fires : Bool)
    (during_block : AcceptTimeout T → AcceptTimeout T) :
    Option (UvResult T × AcceptTimeout T) :=
  if timeout.timed_out s.state && !s.closed then
    match s.data.pending with
    | msg :: rest => some (msg, { s with data := { s.data with pending := rest } })
    | [] => some (.error ⟨uvll.ECANCELED⟩, s)
  else
    match timeout.grant s.state timer_fires with
    | none => none
    | some (.error e, st) => some (.error e, { s with state := st })
    | some (.ok _can_timeout, st) =>
      let s1 := { s with state := st }
      if s1.closed then
        match timeout.guard_drop s1.state with
        | none => none
        | some st2 => some (.error ⟨uvll.EOF⟩, { s1 with state := st2 })
      else
        match s1.data.pending with
        | msg :: rest =>
          match timeout.guard_drop s1.state with
          | none => none
          | some st2 =>
            some (msg, { s1 with state := st2,
                                 data := { s1.data with pending := rest } })
        | [] =>
          let s2 := during_block
            { s1 with data := { s1.data with blocked_acceptor := some theTask } }
          let popped := s2.data.pending.head?
          let rest := s2.data.pending.tail
          let res : UvResult T :=
            if s2.closed then .error ⟨uvll.EOF⟩
            else
              match popped with
              | some msg => msg
              | none => .error ⟨uvll.ECANCELED⟩
          match timeout.guard_drop s2.state with
          | none => none
          | some st2 =>
            some (res, { s2 with state := st2,
                                 data := { s2.data with pending := rest } })

/-- Pusher::push from src/librustuv/src/timeout.rs:422-428: append the
accepted result to the pending queue, then take and reawaken any parked
acceptor. -/
def push {T : Type} (s : AcceptTimeout T) (t : UvResult T) : AcceptTimeout T :=
  { s with data := { blocked_acceptor := none,
                     pending := s.data.pending ++ [t] } }

/-- AcceptTimeout::close from src/librustuv/src/timeout.rs:414-419: flip the
closed bit on the inner Access, then take and reawaken any parked acceptor. -/
def close {T : Type} (s : AcceptTimeout T) : AcceptTimeout T :=
  { s with closed := true,
           data := { s.data with blocked_acceptor := none } }

end accept_timeout

/-- C4: with the timeout fired (state TimedOut) and the queue not closed,
accept pops and returns the oldest already-accepted pending result when one
is queued, and returns ECANCELED exactly when the pending queue is empty;
queued clients are never dropped by the timeout. -/
theorem C4_timed_out_accept_drains_pending {T : Type}
    (s : accept_timeout.AcceptTimeout T) (fires : Bool)
    (during : accept_timeout.AcceptTimeout T → accept_timeout.AcceptTimeout T)
    (h1 : timeout.timed_out s.state = true) (h2 : s.closed = false) :
    (s.data.pending = [] →
      accept_timeout.accept s fires during
        = some (.error ⟨uvll.ECANCELED⟩, s)) ∧
    (∀ msg rest, s.data.pending = msg :: rest →
      accept_timeout.accept s fires during
        = some (msg, { s with data := { s.data with pending := rest } })) := by
  constructor
  · intro hp
    simp [accept_timeout.accept, h1, h2, hp]
  · intro msg rest hp
    simp [accept_timeout.accept, h1, h2, hp]

/-- C4 witness: a timed-out, open acceptor with one pending connection hands
it out, and with none left the next accept yields ECANCELED. -/
theorem C4_timed_out_accept_drains_pending_w :
    accept_timeout.accept (T := Nat)
        ⟨.TimedOut, false, ⟨none, [.ok 5]⟩⟩ false id
      = some (.ok 5, ⟨.TimedOut, false, ⟨none, []⟩⟩) ∧
    accept_timeout.accept (T := Nat)
        ⟨.TimedOut, false, ⟨none, []⟩⟩ false id
      = some (.error ⟨uvll.ECANCELED⟩, ⟨.TimedOut, false, ⟨none, []⟩⟩) :=
  ⟨(C4_timed_out_accept_drains_pending
      ⟨.TimedOut, false, ⟨none, [.ok 5]⟩⟩ false id rfl rfl).2 (.ok 5) [] rfl,
   (C4_timed_out_accept_drains_pending
      ⟨.TimedOut, false, ⟨none, []⟩⟩ false id rfl rfl).1 rfl⟩

/-- C5 counterexample: a closed acceptor with one pending connection queued
before the close returns EOF and leaves the state (in particular the pending
queue) unchanged, so the queued connection is never delivered to any accept
caller, contradicting the claim that it is still delivered. -/
theorem C5_close_counterexample :
    accept_timeout.accept (T := Nat)
        ⟨.NoTimeout, true, ⟨none, [.ok 7]⟩⟩ false id
      = some (.error ⟨uvll.EOF⟩, ⟨.NoTimeout, true, ⟨none, [.ok 7]⟩⟩) ∧
    (Except.error ⟨uvll.EOF⟩ : UvResult Nat) ≠ .ok 7 := by
  exact ⟨rfl, by decide⟩

/-- C5 amended: after close_accept every subsequent accept fails — with
ECANCELED when the acceptor is also in the TimedOut state and with EOF
otherwise — and the pending queue is left untouched: connections queued
before the close are not delivered. -/
theorem C5_accept_after_close {T : Type}
    (s : accept_timeout.AcceptTimeout T)
    (during : accept_timeout.AcceptTimeout T → accept_timeout.AcceptTimeout T)
    (h : s.closed = true) :
    ∃ st2, accept_timeout.accept s false during
      = some (.error ⟨if timeout.timed_out s.state then uvll.ECANCELED
                      else uvll.EOF⟩,
              { s with state := st2 }) := by
  cases s with
  | mk st closed data =>
    subst h
    cases st with
    | NoTimeout => exact ⟨.NoTimeout, rfl⟩
    | TimedOut => exact ⟨.TimedOut, rfl⟩
    | TimeoutPending c => exact ⟨.TimeoutPending .NoWaiter, rfl⟩

/-- C5 amended witness: a closed acceptor holding a queued connection gets
EOF from accept, with the queue left in place. -/
theorem C5_accept_after_close_w :
    ∃ st2, accept_timeout.accept (T := Nat)
        ⟨.NoTimeout, true, ⟨none, [.ok 7]⟩⟩ false id
      = some (.error ⟨if timeout.timed_out .NoTimeout then uvll.ECANCELED
                      else uvll.EOF⟩,
              ⟨st2, true, ⟨none, [.ok 7]⟩⟩) :=
  C5_accept_after_close ⟨.NoTimeout, true, ⟨none, [.ok 7]⟩⟩ id rfl

namespace connect_ctx

/-- The reactor-visible actions of ConnectCtx::connect, in program order:
submitting the connect request to the reactor (the call to f, e.g.
uv_tcp_connect at src/librustuv/src/tcp.rs:106-108, succeeding), starting
the timeout timer, and parking the task. -/
inductive Action
  | submit_connect
  | start_timer (ms : Nat)
  | park
deriving DecidableEq, Repr

/-- ConnectCtx::connect from src/librustuv/src/timeout.rs:232-280.
req_result is the outcome of f, which submits the connect request to the
reactor; on error the request is freed and the error returned. Only then is
the timeout examined: a duration of at most 0 ms returns ECANCELED at once.
Otherwise the timer is started (when a timeout is given), the task parks,
and on resume the recorded status decides: 0 is success, any other status n
is the error n (set by connect_cb or, on timeout, ECANCELED by timer_cb).
The result pairs the reactor actions performed, in order, with the value
the call returns. -/
def connect (req_result : UvResult Unit) (timeout : Option Int)
    (status : Int) : List Action × UvResult Unit :=
  match req_result with
  | .error e => ([], .error e)
  | .ok _ =>
    match timeout with
    | some t =>
      if t ≤ 0 then ([.submit_connect], .error ⟨uvll.ECANCELED⟩)
      else
        ([.submit_connect, .start_timer t.toNat, .park],
         if status = 0 then .ok () else .error ⟨status⟩)
    | none =>
      ([.submit_connect, .park],
       if status = 0 then .ok () else .error ⟨status⟩)

end connect_ctx

/-- C6 counterexample: a connect with a 0 ms timeout does return ECANCELED,
but the trace of the call contains the submission of the connect request to
the reactor — the request is issued before the duration is examined, so the
error is not returned without touching the network. -/
theorem C6_connect_zero_timeout_counterexample :
    (connect_ctx.connect (.ok ()) (some 0) 0).2 = .error ⟨uvll.ECANCELED⟩ ∧
    connect_ctx.Action.submit_connect ∈ (connect_ctx.connect (.ok ()) (some 0) 0).1 := by
  exact ⟨rfl, by decide⟩

/-- C6 amended: once the connect request has been submitted successfully, a
timeout whose duration is at most zero makes the call return ECANCELED
regardless of the recorded status — but the connect request has already been
submitted to the reactor by then, as the trace records. -/
theorem C6_connect_zero_timeout_canceled (t status : Int) (h : t ≤ 0) :
    connect_ctx.connect (.ok ()) (some t) status
      = ([.submit_connect], .error ⟨uvll.ECANCELED⟩) := by
  simp [connect_ctx.connect, h]

/-- C6 amended witness: duration 0 with status 0. -/
theorem C6_connect_zero_timeout_canceled_w :
    connect_ctx.connect (.ok ()) (some 0) 0
      = ([.submit_connect], .error ⟨uvll.ECANCELED⟩) :=
  C6_connect_zero_timeout_canceled 0 0 (by decide)

/-- A uv buffer handed to an allocation callback; its identity is all the
model needs. -/
abbrev UvBuf := Nat

namespace stream

/-- ReadContext from src/librustuv/src/stream.rs:39-43. -/
structure ReadContext where
  buf : Option UvBuf
  result : Int
  task : Option BlockedTask
deriving DecidableEq, Repr

/-- read_cb from src/librustuv/src/stream.rs:161-179: asserts that nread is
not ECANCELED (none models the failed assertion), stops further reads,
records nread as the result and wakes the parked task (via wakeup, which
itself asserts the slot is nonempty). -/
def read_cb (rcx : ReadContext) (nread : Int) : Option ReadContext :=
  if nread = uvll.ECANCELED then none
  else
    match wakeup rcx.task with
    | none => none
    | some (_t, slot) => some { rcx with result := nread, task := slot }

/-- The mapping of the recorded read result performed by Stream::read at
src/librustuv/src/stream.rs:90-93: a negative count is the error of that
code, otherwise the byte count is returned. -/
def read_result (result : Int) : UvResult Nat :=
  if result < 0 then .error ⟨result⟩ else .ok result.toNat

end stream

namespace udp

/-- A socket address; its identity is all the model needs. -/
abbrev SocketAddr := Nat

/-- UdpRecvCtx from src/librustuv/src/udp.rs:38-42. -/
structure UdpRecvCtx where
  task : Option BlockedTask
  buf : Option UvBuf
  result : Option (Int × Option SocketAddr)
deriving DecidableEq, Repr

/-- recv_cb from src/librustuv/src/udp.rs:109-137: asserts nread is not
ECANCELED; a 0-length read restores the buffer into the context and returns
without stopping the receive or waking the task; otherwise it stops the
receive, records (nread, addr) and wakes the parked task. -/
def recv_cb (cx : UdpRecvCtx) (nread : Int) (buf : UvBuf)
    (addr : Option SocketAddr) : Option UdpRecvCtx :=
  if nread = uvll.ECANCELED then none
  else if nread = 0 then
    some { cx with buf := some buf }
  else
    match wakeup cx.task with
    | none => none
    | some (_t, slot) =>
      some { cx with result := some (nread, addr), task := slot }

/-- The mapping of the recorded result performed by Udp::recv_from at
src/librustuv/src/udp.rs:93-96: the recorded result is unwrapped (none
models the panic on a missing result), a negative count is an error, and
otherwise the count with the unwrapped address is returned. -/
def recv_from_result (res : Option (Int × Option SocketAddr)) :
    Option (UvResult (Nat × SocketAddr)) :=
  match res with
  | none => none
  | some (n, a) =>
    if n < 0 then some (.error ⟨n⟩)
    else
      match a with
      | some addr => some (.ok (n.toNat, addr))
      | none => none

end udp

/-- C8: an ECANCELED completion fails the boundary assertion in both the
stream read callback and the UDP receive callback rather than being
recorded, and every negative recorded result is surfaced by Stream::read as
an error — a successful read only ever comes from a non-negative count. -/
theorem C8_ecanceled_never_success :
    (∀ rcx : stream.ReadContext, stream.read_cb rcx uvll.ECANCELED = none) ∧
    (∀ (cx : udp.UdpRecvCtx) (buf : UvBuf) (addr : Option udp.SocketAddr),
      udp.recv_cb cx uvll.ECANCELED buf addr = none) ∧
    (∀ n : Int, n < 0 → stream.read_result n = .error ⟨n⟩) ∧
    (∀ (n : Int) (r : Nat), stream.read_result n = .ok r → 0 ≤ n) := by
  refine ⟨fun rcx => ?_, fun cx buf addr => ?_, fun n h => ?_, fun n r h => ?_⟩
  · simp [stream.read_cb]
  · simp [udp.recv_cb]
  · simp [stream.read_result, h]
  · by_cases hn : n < 0
    · simp [stream.read_result, hn] at h
    · exact le_of_not_lt hn

/-- C8 witness: the ECANCELED code itself is negative and is mapped to an
error by Stream::read, and a successful result 3 has a non-negative count. -/
theorem C8_ecanceled_never_success_w :
    stream.read_result uvll.ECANCELED = .error ⟨uvll.ECANCELED⟩ ∧
    (0 : Int) ≤ 3 :=
  ⟨C8_ecanceled_never_success.2.2.1 uvll.ECANCELED (by decide),
   C8_ecanceled_never_success.2.2.2 3 3 rfl⟩

/-- C9: a 0-length UDP receive callback only restores the buffer into the
context — the parked task and the recorded result are untouched, so the task
stays parked; any result the callback does record has a nonzero count, and
the recv_from result mapping never turns such a record into a successful
0-byte read. -/
theorem C9_recv_from_no_zero_reads :
    (∀ (cx : udp.UdpRecvCtx) (buf : UvBuf) (addr : Option udp.SocketAddr),
      udp.recv_cb cx 0 buf addr = some { cx with buf := some buf }) ∧
    (∀ (cx : udp.UdpRecvCtx) (nread : Int) (buf : UvBuf)
        (addr : Option udp.SocketAddr) (cx' : udp.UdpRecvCtx),
      cx.result = none →
      udp.recv_cb cx nread buf addr = some cx' →
      cx'.result = none ∨ ∃ n a, cx'.result = some (n, a) ∧ n ≠ 0) ∧
    (∀ (n : Int) (a : Option udp.SocketAddr) (p : Nat × udp.SocketAddr),
      udp.recv_from_result (some (n, a)) = some (.ok p) →
      n ≠ 0 → p.1 ≠ 0) := by
  refine ⟨fun cx buf addr => ?_, fun cx nread buf addr cx' hres h => ?_,
          fun n a p h hn => ?_⟩
  · simp [udp.recv_cb, uvll.ECANCELED]
  · by_cases hc : nread = uvll.ECANCELED
    · simp [udp.recv_cb, hc] at h
    · by_cases h0 : nread = 0
      · subst h0
        simp [udp.recv_cb, uvll.ECANCELED] at h
        left
        rw [← h]
        exact hres
      · cases htask : cx.task with
        | none => simp [udp.recv_cb, hc, h0, wakeup, htask] at h
        | some t =>
          simp [udp.recv_cb, hc, h0, wakeup, htask] at h
          right
          exact ⟨nread, addr, by rw [← h], h0⟩
  · by_cases hlt : n < 0
    · simp [udp.recv_from_result, hlt] at h
    · cases a with
      | none => simp [udp.recv_from_result, hlt] at h
      | some addr =>
        simp [udp.recv_from_result, hlt] at h
        have hp : p.1 = n.toNat := by rw [← h]
        rw [hp]
        omega

/-- C9 witness: a 5-byte callback on a context with no recorded result
records a nonzero count, and the mapped result of (5, addr 3) has a nonzero
byte count. -/
theorem C9_recv_from_no_zero_reads_w :
    ((⟨none, none, some (5, some 3)⟩ : udp.UdpRecvCtx).result = none ∨
      ∃ n a, (⟨none, none, some (5, some 3)⟩ : udp.UdpRecvCtx).result
          = some (n, a) ∧ n ≠ 0) ∧
    ((5 : Int).toNat, (3 : udp.SocketAddr)).1 ≠ 0 :=
  ⟨C9_recv_from_no_zero_reads.2.1 ⟨some 0, none, none⟩ 5 9 (some 3)
      ⟨none, none, some (5, some 3)⟩ rfl rfl,
   C9_recv_from_no_zero_reads.2.2 5 (some 3) ((5 : Int).toNat, 3) rfl
      (by decide)⟩

namespace fs

/-- File::read_at from src/librustuv/src/fs.rs:118-128: execute runs the
reactor read request and yields its result (an error already when the
request failed); the and_then maps a 0-byte completion to the EOF error and
any other count n to Ok(n). -/
def read_at (exec_result : UvResult Nat) : UvResult Nat :=
  match exec_result with
  | .error e => .error e
  | .ok r => if r = 0 then .error ⟨uvll.EOF⟩ else .ok r

end fs

/-- C10: read_at maps a 0-byte completion to the EOF error, and every
successful return carries at least one byte. -/
theorem C10_read_at_never_ok_zero :
    fs.read_at (.ok 0) = .error ⟨uvll.EOF⟩ ∧
    (∀ (res : UvResult Nat) (n : Nat), fs.read_at res = .ok n → 1 ≤ n) := by
  refine ⟨rfl, fun res n h => ?_⟩
  match res with
  | .error e => simp [fs.read_at] at h
  | .ok r =>
    by_cases hr : r = 0
    · simp [fs.read_at, hr] at h
    · simp [fs.read_at, hr] at h
      omega

/-- C10 witness: a 3-byte completion succeeds with at least one byte. -/
theorem C10_read_at_never_ok_zero_w : 1 ≤ 3 :=
  C10_read_at_never_ok_zero.2 (.ok 3) 3 rfl

end Rustuv
